import Mathlib

/-!
Shallow embedding of `src/KPodHIDDriver/KPodHIDDriver.cpp`.

The source defines a single DriverKit lifecycle override:

    kern_return_t
    IMPL(KPodHIDDriver, Start)
    {
        kern_return_t ret;
        ret = Start(provider, SUPERDISPATCH);
        os_log(OS_LOG_DEFAULT, "Hello World");
        return ret;
    }

We model the method as a pure function.  The superclass `Start` routine is
an oracle `super : sigma -> P -> T -> Int x sigma` mapping the driver state,
the provider handle and the dispatch-completion token to a `kern_return_t`
status (an `Int`) and the driver state as left by the superclass call.  The
observable effects of one invocation are recorded as an ordered event trace:
a `superCall` event (the outbound call, recording the arguments passed and
the status captured when it resolves) followed by an `osLog` event (the
diagnostic record).  The entry point itself writes nothing else, so the
result exposes the returned status, the final driver state and the trace.

The provider type `P`, driver-state type `sigma` and token type `T` are kept
abstract: the method never inspects any of them.
-/

namespace KPod

/-- One observable effect of a `Start` invocation: either the single outbound
call into the superclass lifecycle routine (recording the provider handle and
dispatch-completion token it was passed, and the status it resolved to), or
one `os_log` emission with its message text. -/
inductive Event (P T : Type) : Type where
  | superCall (provider : P) (tok : T) (status : Int)
  | osLog (msg : String)
  deriving DecidableEq

/-- Whether an event is a diagnostic log emission. -/
def Event.isLog {P T : Type} : Event P T → Bool
  | .osLog _ => true
  | .superCall _ _ _ => false

/-- Whether an event is the outbound superclass call. -/
def Event.isSuperCall {P T : Type} : Event P T → Bool
  | .superCall _ _ _ => true
  | .osLog _ => false

/-- The messages of the log emissions of a trace, in order. -/
def logMessages {P T : Type} (tr : List (Event P T)) : List String :=
  tr.filterMap fun e =>
    match e with
    | .osLog m => some m
    | .superCall _ _ _ => none

/-- Result of one invocation of the `Start` entry point: the status code it
returns, the driver-instance state when it returns, and the ordered trace of
its observable effects. -/
structure StartResult (σ P T : Type) : Type where
  status : Int
  state : σ
  trace : List (Event P T)

namespace KPodHIDDriver

/-- `KPodHIDDriver::Start` from `KPodHIDDriver.cpp`, lines 15-22.

Modelled from the spec: the `SUPERDISPATCH` plumbing lives in the generated
DriverKit glue (the `.iig`-generated header is not part of the sources), and
per the spec the entry point receives a provider handle and a
dispatch-completion token from the host and passes both, unchanged, to the
superclass routine; `tok` stands for that token.

Body, in source order:
  `ret = Start(provider, SUPERDISPATCH);`  — call the superclass routine on
  the current driver state with the same provider and token, capturing the
  status it resolves to and the state it leaves;
  `os_log(OS_LOG_DEFAULT, "Hello World");` — emit the one fixed log record;
  `return ret;`                            — return the captured status. -/
def Start {σ P T : Type} (super : σ → P → T → Int × σ)
    (st : σ) (provider : P) (tok : T) : StartResult σ P T :=
  let ret := super st provider tok
  { status := ret.1
    state := ret.2
    trace := [Event.superCall provider tok ret.1, Event.osLog "Hello World"] }

end KPodHIDDriver

/-- A concrete superclass oracle that succeeds with `kIOReturnSuccess` (0),
used to instantiate witnesses. -/
def superOk : Unit → Unit → Unit → Int × Unit := fun _ _ _ => (0, ())

/-- A concrete superclass oracle that fails with `kIOReturnError`
(`0xe00002bc`), used to instantiate witnesses. -/
def superErr : Unit → Unit → Unit → Int × Unit := fun _ _ _ => (0xe00002bc, ())

/-- Claim C1: for every provider handle, invoking the `Start` entry point
returns exactly the status code that the superclass `Start` routine returns
for it, unmodified (pass-through: nothing is classified, recovered from, or
suppressed). -/
theorem start_passthrough {σ P T : Type} (super : σ → P → T → Int × σ)
    (st : σ) (p : P) (tok : T) :
    (KPodHIDDriver.Start super st p tok).status = (super st p tok).1 := rfl

/-- Claim C2: every invocation of the `Start` entry point emits exactly one
diagnostic log record, unconditionally, whatever status the superclass call
returned — never zero, never more than one. -/
theorem start_exactly_one_log {σ P T : Type} (super : σ → P → T → Int × σ)
    (st : σ) (p : P) (tok : T) :
    ((KPodHIDDriver.Start super st p tok).trace.filter Event.isLog).length = 1 :=
  rfl

/-- Claim C3: the content of the diagnostic log line is identical across any
two invocations of the `Start` entry point, whatever their driver states,
superclass oracles, provider handles or tokens — even at different handle
and token types (no parameterization). -/
theorem start_log_constant {σ₁ P₁ T₁ σ₂ P₂ T₂ : Type}
    (super₁ : σ₁ → P₁ → T₁ → Int × σ₁) (st₁ : σ₁) (p₁ : P₁) (tok₁ : T₁)
    (super₂ : σ₂ → P₂ → T₂ → Int × σ₂) (st₂ : σ₂) (p₂ : P₂) (tok₂ : T₂) :
    logMessages (KPodHIDDriver.Start super₁ st₁ p₁ tok₁).trace
      = logMessages (KPodHIDDriver.Start super₂ st₂ p₂ tok₂).trace := rfl

/-- Claim C4: every invocation of the `Start` entry point makes exactly one
outbound call to the superclass lifecycle routine, and that call is passed
the same provider handle and the same dispatch-completion token that the
entry point itself received. -/
theorem start_one_super_call {σ P T : Type} (super : σ → P → T → Int × σ)
    (st : σ) (p : P) (tok : T) :
    (KPodHIDDriver.Start super st p tok).trace.filter Event.isSuperCall
      = [Event.superCall p tok (super st p tok).1] := rfl

/-- Claim C5: if the superclass call returns success `sOK`, the entry point
returns `sOK` with exactly the one log line observed; if it returns failure
`sERR`, the entry point returns `sERR` with the same single log line and no
additional error log. -/
theorem start_scenarios {σ P T : Type} (super : σ → P → T → Int × σ)
    (st : σ) (p : P) (tok : T) (sOK sERR : Int) :
    ((super st p tok).1 = sOK →
      (KPodHIDDriver.Start super st p tok).status = sOK ∧
      logMessages (KPodHIDDriver.Start super st p tok).trace = ["Hello World"]) ∧
    ((super st p tok).1 = sERR →
      (KPodHIDDriver.Start super st p tok).status = sERR ∧
      logMessages (KPodHIDDriver.Start super st p tok).trace = ["Hello World"]) :=
  ⟨fun h => ⟨h, rfl⟩, fun h => ⟨h, rfl⟩⟩

/-- Witness for C5: with a succeeding superclass oracle the entry point
returns `0` with the single `"Hello World"` line, and with a failing oracle
it returns `0xe00002bc` with the same single line. -/
theorem start_scenarios_witness :
    ((KPodHIDDriver.Start superOk () () ()).status = 0 ∧
      logMessages (KPodHIDDriver.Start superOk () () ()).trace = ["Hello World"]) ∧
    ((KPodHIDDriver.Start superErr () () ()).status = 0xe00002bc ∧
      logMessages (KPodHIDDriver.Start superErr () () ()).trace = ["Hello World"]) :=
  ⟨(start_scenarios superOk () () () 0 0xe00002bc).1 rfl,
   (start_scenarios superErr () () () 0 0xe00002bc).2 rfl⟩

/-- Claim C6: in every invocation, any diagnostic log emission observed in
the trace occurs strictly after the superclass call has resolved — its
status already captured, and that status is the one the entry point
returns. -/
theorem start_super_before_log {σ P T : Type} (super : σ → P → T → Int × σ)
    (st : σ) (p : P) (tok : T) (j : Nat) (m : String)
    (h : (KPodHIDDriver.Start super st p tok).trace[j]? = some (Event.osLog m)) :
    ∃ i, i < j ∧
      (KPodHIDDriver.Start super st p tok).trace[i]?
        = some (Event.superCall p tok (KPodHIDDriver.Start super st p tok).status) := by
  match j with
  | 0 => simp [KPodHIDDriver.Start] at h
  | 1 => exact ⟨0, Nat.zero_lt_one, rfl⟩
  | n + 2 => simp [KPodHIDDriver.Start] at h

/-- Witness for C6: in a concrete run the log event sits at index 1 of the
trace, and the superclass-call event indeed precedes it. -/
theorem start_super_before_log_witness :
    (KPodHIDDriver.Start superOk () () ()).trace[1]?
      = some (Event.osLog "Hello World") ∧
    ∃ i, i < 1 ∧
      (KPodHIDDriver.Start superOk () () ()).trace[i]?
        = some (Event.superCall () () (KPodHIDDriver.Start superOk () () ()).status) :=
  ⟨rfl, start_super_before_log superOk () () () 1 "Hello World" rfl⟩

/-- Claim C7: beyond the superclass call itself, the only observable side
effect of the `Start` entry point is the single log emission — the driver
state it returns is exactly the state the superclass call left (the method
writes no field of its own), and its trace holds nothing but that one
superclass call and that one log record. -/
theorem start_frame {σ P T : Type} (super : σ → P → T → Int × σ)
    (st : σ) (p : P) (tok : T) :
    (KPodHIDDriver.Start super st p tok).state = (super st p tok).2 ∧
    (KPodHIDDriver.Start super st p tok).trace
      = [Event.superCall p tok (super st p tok).1, Event.osLog "Hello World"] :=
  ⟨rfl, rfl⟩

/-- Claim C8: the fixed diagnostic message emitted by every invocation of
the `Start` entry point is exactly the literal string `"Hello World"`. -/
theorem start_log_is_hello_world {σ P T : Type} (super : σ → P → T → Int × σ)
    (st : σ) (p : P) (tok : T) :
    logMessages (KPodHIDDriver.Start super st p tok).trace = ["Hello World"] :=
  rfl

/-- Claim C9: the `Start` entry point performs no validation of the provider
handle — for every value of an optional handle, the null handle `none`
included, the handle is forwarded to the superclass call unchanged and the
superclass status is returned with no early-failure branch. -/
theorem start_no_validation {σ P T : Type} (super : σ → Option P → T → Int × σ)
    (st : σ) (p : Option P) (tok : T) :
    (KPodHIDDriver.Start super st p tok).trace.filter Event.isSuperCall
      = [Event.superCall p tok (super st p tok).1] ∧
    (KPodHIDDriver.Start super st p tok).status = (super st p tok).1 :=
  ⟨rfl, rfl⟩

/-- Claim C10: the observable log output of the `Start` entry point does not
depend on the superclass status — two invocations whose superclass calls
return different status codes emit identical log output. -/
theorem start_log_noninterference {σ₁ P₁ T₁ σ₂ P₂ T₂ : Type}
    (super₁ : σ₁ → P₁ → T₁ → Int × σ₁) (st₁ : σ₁) (p₁ : P₁) (tok₁ : T₁)
    (super₂ : σ₂ → P₂ → T₂ → Int × σ₂) (st₂ : σ₂) (p₂ : P₂) (tok₂ : T₂)
    (hne : (KPodHIDDriver.Start super₁ st₁ p₁ tok₁).status
      ≠ (KPodHIDDriver.Start super₂ st₂ p₂ tok₂).status) :
    logMessages (KPodHIDDriver.Start super₁ st₁ p₁ tok₁).trace
      = logMessages (KPodHIDDriver.Start super₂ st₂ p₂ tok₂).trace := rfl

/-- Witness for C10: a succeeding and a failing run have different statuses
yet identical log output. -/
theorem start_log_noninterference_witness :
    (KPodHIDDriver.Start superOk () () ()).status
      ≠ (KPodHIDDriver.Start superErr () () ()).status ∧
    logMessages (KPodHIDDriver.Start superOk () () ()).trace
      = logMessages (KPodHIDDriver.Start superErr () () ()).trace :=
  ⟨by decide,
   start_log_noninterference superOk () () () superErr () () () (by decide)⟩

end KPod
